import Mathlib

/-!
Verification of the 16S-RDS length-filter scripts (`Length_Filter.py`,
`Length_Filter2.py`) against their specification.

Both scripts stream fastq records from an input file, keep exactly the
records whose sequence length lies strictly between a lower and an upper
bound, and write the survivors to an output file.  The development below
is a shallow embedding of the relevant parts of the two scripts: records
become a structure, the two chained generator expressions become list
filters, the extension dispatch and gzip handling become functions on
path strings, and the streaming write loop becomes a recursion over a
list of parse results.
-/

/-- One fastq record as Biopython's `SeqRecord` presents it to the scripts:
an identifier, a sequence string and a per-base quality string.  Only the
sequence's length is inspected by the filter. -/
structure SeqRecord where
  ident : String
  seq : String
  qual : String
deriving DecidableEq, Repr

/-- Python's `str.endswith(suffix)`: the suffix test used by both the input
extension dispatch and the gzip output handling of `Length_Filter2.py`. -/
def endswith (s suffix : String) : Bool :=
  suffix.data.isSuffixOf s.data

/-- Line 32 of `Length_Filter2.py` (line 18 of `Length_Filter.py`):
`highs = (record for record in input_iterator if len(record.seq) > LOWER)`. -/
def highs (records : List SeqRecord) (lower : Int) : List SeqRecord :=
  records.filter (fun r => decide (lower < (r.seq.length : Int)))

/-- Line 33 of `Length_Filter2.py` (line 19 of `Length_Filter.py`):
`lows = (record for record in highs if len(record.seq) < UPPER)`. -/
def lows (records : List SeqRecord) (upper : Int) : List SeqRecord :=
  records.filter (fun r => decide ((r.seq.length : Int) < upper))

/-- The composed filter pipeline the scripts feed to `SeqIO.write`:
first `highs`, then `lows`. -/
def lengthFilter (records : List SeqRecord) (lower upper : Int) : List SeqRecord :=
  lows (highs records lower) upper

/-- The length predicate of spec section 4.2: `lower < len(seq) < upper`,
both bounds exclusive. -/
def keep (lower upper : Int) (r : SeqRecord) : Bool :=
  decide (lower < (r.seq.length : Int)) && decide ((r.seq.length : Int) < upper)

theorem lengthFilter_eq_filter_keep (records : List SeqRecord) (lower upper : Int) :
    lengthFilter records lower upper = records.filter (keep lower upper) := by
  unfold lengthFilter lows highs keep
  rw [List.filter_filter]
  congr 1
  funext a
  exact Bool.and_comm _ _

theorem mem_lengthFilter (r : SeqRecord) (records : List SeqRecord) (lower upper : Int) :
    r ∈ lengthFilter records lower upper ↔
      r ∈ records ∧ lower < (r.seq.length : Int) ∧ (r.seq.length : Int) < upper := by
  rw [lengthFilter_eq_filter_keep, List.mem_filter]
  unfold keep
  simp [and_assoc]

theorem lengthFilter_sublist (records : List SeqRecord) (lower upper : Int) :
    (lengthFilter records lower upper).Sublist records := by
  rw [lengthFilter_eq_filter_keep]
  exact List.filter_sublist records

/-- How the input file is read once its extension is recognized: plain text
(`open(INPUT_FILE)`) or gzip-decompressed (`gzip.open(INPUT_FILE)`). -/
inductive InputMode
  | plain
  | gzipped
deriving DecidableEq, Repr

/-- The ways the scripts can fail before parsing starts.  `nameError` is
Python's `NameError`, raised in `Length_Filter2.py` when the if/elif
extension dispatch matched neither suffix and `input_iterator` was
therefore never assigned.  `unsupportedInput` stands for the descriptive
`UnsupportedInputError` the spec asks for; no line of either script
constructs it. -/
inductive ProgramError
  | nameError
  | unsupportedInput
deriving DecidableEq, Repr

/-- Lines 27-30 of `Length_Filter2.py`: `if INPUT_FILE.endswith('.fastq'):`
open plain, `elif INPUT_FILE.endswith('.fastq.gz'):` open gzipped; there is
no `else` branch, so an unmatched path leaves `input_iterator` unassigned. -/
def resolveInput (path : String) : Option InputMode :=
  if endswith path ".fastq" then some InputMode.plain
  else if endswith path ".fastq.gz" then some InputMode.gzipped
  else none

/-- What `Length_Filter2.py` does with the input path: when the dispatch
matches, parsing proceeds in the matched mode; when it matches nothing, the
very next use of `input_iterator` (line 32) raises `NameError`, which ends
the process with a traceback and non-zero status. -/
def openInputV2 (path : String) : Except ProgramError InputMode :=
  match resolveInput path with
  | some m => Except.ok m
  | none => Except.error ProgramError.nameError

/-- Line 16 of `Length_Filter.py`: `SeqIO.parse(open(INPUT_FILE), "fastq")`
with no extension check at all — every path, whatever its suffix, is opened
and parsed as plain text. -/
def openInputV1 (_path : String) : InputMode :=
  InputMode.plain

/-- The outcome of the output-path handling of `Length_Filter2.py`:
the path actually opened, whether the handle compresses
(`gzip.open` vs `open`), and whether the extension-correction warning was
printed. -/
structure OutputResolution where
  path : String
  gzipped : Bool
  warned : Bool
deriving DecidableEq, Repr

/-- Lines 35-41 of `Length_Filter2.py`: with `-z` (`--gzip`) set, a `.gz`
suffix is appended (with a warning) only when the output name ends in
`.fastq`; any other name is used unchanged, and the handle is
`gzip.open(OUTPUT_FILE, "w")`.  Without the flag the name is used as given
with a plain handle. -/
def resolveOutput (gzipFlag : Bool) (outputFile : String) : OutputResolution :=
  if gzipFlag then
    if endswith outputFile ".fastq" then
      ⟨outputFile ++ ".gz", true, true⟩
    else
      ⟨outputFile, true, false⟩
  else
    ⟨outputFile, false, false⟩

/-- Where a message is printed. -/
inductive OutChannel
  | stdout
  | stderr
deriving DecidableEq, Repr

/-- A premature exit triggered by the command-line surface: the channel the
usage text goes to, the process exit status, and the text itself. -/
structure UsageExit where
  channel : OutChannel
  exitCode : Nat
  message : String
deriving DecidableEq, Repr

/-- Line 13 of `Length_Filter.py`, the literal usage text. -/
def usageTextV1 : String :=
  "Usage: Length_Filter.py <input fastq file> <output fastq file> <lower length cut-off> <upper length cut-off>"

/-- Lines 6-14 of `Length_Filter.py`: the four positional arguments are read
from `sys.argv[1]` through `sys.argv[4]`; an `IndexError` (any of them
missing) is caught, the usage text is printed with a bare `print`
(standard output), and `raise SystemExit` with no argument ends the
process with exit status 0.  The `int()` conversion of the bounds is kept
as the raw strings here; a `ValueError` there is uncaught and outside this
path. -/
def parseArgsV1 (argv : List String) : Except UsageExit (String × String × String × String) :=
  match argv.get? 1 with
  | none => Except.error ⟨OutChannel.stdout, 0, usageTextV1⟩
  | some a =>
    match argv.get? 2 with
    | none => Except.error ⟨OutChannel.stdout, 0, usageTextV1⟩
    | some b =>
      match argv.get? 3 with
      | none => Except.error ⟨OutChannel.stdout, 0, usageTextV1⟩
      | some c =>
        match argv.get? 4 with
        | none => Except.error ⟨OutChannel.stdout, 0, usageTextV1⟩
        | some d => Except.ok (a, b, c, d)

/-- Lines 14-20 of `Length_Filter2.py` declare the arguments with
`argparse` and `required=True`; the behavior on a missing required
argument is the argparse library's (not code of this repository): the
usage text goes to standard error and the process exits with status 2. -/
def missingArgBehaviorV2 : UsageExit :=
  ⟨OutChannel.stderr, 2, "usage: Length_Filter2.py [-h] -i Input.fastq -o Output.fastq.gz -l 240 -u 260 [-z]"⟩

/-- The two ways Biopython's fastq parser rejects a record mid-stream, per
spec section 7: a truncated record (line-count mismatch) or sequence and
quality lines of different lengths. -/
inductive FormatError
  | lineCountMismatch
  | lengthMismatch
deriving DecidableEq, Repr

/-- One step of the lazy `SeqIO.parse` iterator: either the next well-formed
record, or the exception that aborts the iteration. -/
inductive ParseStep
  | ok (r : SeqRecord)
  | fail (e : FormatError)
deriving DecidableEq, Repr

/-- The streaming pass `SeqIO.write(lows, output_handle, "fastq")` performs:
records are pulled one at a time through the two generator filters and
written in order; the first parser exception propagates immediately, so
nothing at or after it is processed and the records already written stay
written. -/
def streamRun (lower upper : Int) : List ParseStep → List SeqRecord × Option FormatError
  | [] => ([], none)
  | ParseStep.fail e :: _ => ([], some e)
  | ParseStep.ok r :: rest =>
    let res := streamRun lower upper rest
    (if keep lower upper r then r :: res.1 else res.1, res.2)

/-- The observable end state of one run of `Length_Filter2.py`'s main body
(lines 28-44): the records written, the parse error if one aborted the
pass, and whether each handle was explicitly closed.
`output_handle.close()` is the script's last statement, reached only when
`SeqIO.write` returned normally; no statement ever closes the input
handle. -/
structure RunOutcome where
  written : List SeqRecord
  err : Option FormatError
  outputClosed : Bool
  inputClosed : Bool
deriving DecidableEq, Repr

/-- One run of the filter body over the parse steps of the input. -/
def runProgram (items : List ParseStep) (lower upper : Int) : RunOutcome :=
  let res := streamRun lower upper items
  ⟨res.1, res.2, res.2.isNone, false⟩

/-- The path the output handle is actually opened on, after the gzip
extension correction of lines 35-41. -/
def finalOutputPath (gzipFlag : Bool) (outputFile : String) : String :=
  (resolveOutput gzipFlag outputFile).path

/-- The run's effect on the file system, with a file's content abstracted
as its list of records.  The input path is opened for reading only; the one
write is `open(... , "w")`/`gzip.open(... , "w")` on the resolved output
path, which replaces that file's content with the filtered records.  A
missing input file makes `open` raise `IOError` before anything is
written. -/
def runFs (fs : String → Option (List SeqRecord)) (inputPath outputFile : String)
    (gzipFlag : Bool) (lower upper : Int) : String → Option (List SeqRecord) :=
  match fs inputPath with
  | none => fs
  | some recs => fun p =>
    if p = finalOutputPath gzipFlag outputFile then some (lengthFilter recs lower upper)
    else fs p

theorem isSuffixOf_append (l1 l2 : List Char) : l2.isSuffixOf (l1 ++ l2) = true := by
  simp [List.isSuffixOf]

theorem endswith_append (s t : String) : endswith (s ++ t) t = true := by
  unfold endswith
  rw [String.data_append]
  exact isSuffixOf_append s.data t.data

/-- C1: for every record stream and bounds, the output is exactly the input
records `r` with `lower < len(r.seq) < upper`, in their original relative
order (a sublist of the input) and no others; a record whose sequence
length equals `lower` or `upper` is excluded. -/
theorem filter_output_exact (records : List SeqRecord) (lower upper : Int) :
    (∀ r, r ∈ lengthFilter records lower upper ↔
        r ∈ records ∧ lower < (r.seq.length : Int) ∧ (r.seq.length : Int) < upper)
    ∧ (lengthFilter records lower upper).Sublist records
    ∧ (∀ r, r ∈ records → (r.seq.length : Int) = lower ∨ (r.seq.length : Int) = upper →
        r ∉ lengthFilter records lower upper) := by
  refine ⟨fun r => mem_lengthFilter r records lower upper,
    lengthFilter_sublist records lower upper, ?_⟩
  intro r _ hb hmem
  rcases (mem_lengthFilter r records lower upper).mp hmem with ⟨-, h1, h2⟩
  rcases hb with h | h <;> omega

/-- Witness for C1 at a concrete record of length 4 and bounds 2, 10. -/
theorem filter_output_exact_witness :
    (⟨"r1", "ACGT", "IIII"⟩ : SeqRecord) ∈ lengthFilter [⟨"r1", "ACGT", "IIII"⟩] 2 10 :=
  ((filter_output_exact [⟨"r1", "ACGT", "IIII"⟩] 2 10).1 ⟨"r1", "ACGT", "IIII"⟩).mpr
    ⟨by simp, by decide, by decide⟩

/-- C4: the filter is idempotent — running the pipeline again with the same
bounds on its own output returns that output unchanged. -/
theorem filter_idempotent (records : List SeqRecord) (lower upper : Int) :
    lengthFilter (lengthFilter records lower upper) lower upper
      = lengthFilter records lower upper := by
  simp only [lengthFilter_eq_filter_keep]
  apply List.filter_eq_self.mpr
  intro r hr
  exact (List.mem_filter.mp hr).2

/-- C5: whenever `lower >= upper` the filter keeps nothing, so the output is
empty. -/
theorem crossed_bounds_empty (records : List SeqRecord) (lower upper : Int)
    (h : upper ≤ lower) :
    lengthFilter records lower upper = [] := by
  rw [lengthFilter_eq_filter_keep]
  apply List.filter_eq_nil_iff.mpr
  intro r _
  unfold keep
  simp only [Bool.and_eq_true, decide_eq_true_eq, not_and]
  omega

/-- Witness for C5 with equal bounds 5, 5 and one record. -/
theorem crossed_bounds_empty_witness :
    (5 : Int) ≤ 5 ∧ lengthFilter [⟨"r1", "ACGT", "IIII"⟩] 5 5 = [] :=
  ⟨le_refl 5, crossed_bounds_empty [⟨"r1", "ACGT", "IIII"⟩] 5 5 (le_refl 5)⟩

/-- C6: the output never has more records than the input, and the counts are
equal exactly when every input record satisfies the length predicate. -/
theorem output_count_le_input (records : List SeqRecord) (lower upper : Int) :
    (lengthFilter records lower upper).length ≤ records.length
    ∧ ((lengthFilter records lower upper).length = records.length ↔
        ∀ r ∈ records, keep lower upper r = true) := by
  simp only [lengthFilter_eq_filter_keep]
  refine ⟨List.length_filter_le _ _, ?_, ?_⟩
  · intro h
    have heq : records.filter (keep lower upper) = records :=
      (List.filter_sublist records).eq_of_length h
    exact List.filter_eq_self.mp heq
  · intro h
    rw [List.filter_eq_self.mpr h]

/-- Witness for C6: with bounds 2, 10 the single length-4 record is kept, so
the counts agree. -/
theorem output_count_le_input_witness :
    (lengthFilter [⟨"r1", "ACGT", "IIII"⟩] 2 10).length
      = ([⟨"r1", "ACGT", "IIII"⟩] : List SeqRecord).length :=
  (output_count_le_input [⟨"r1", "ACGT", "IIII"⟩] 2 10).2.mpr (by decide)

/-- C2 counterexample: at the unrecognized path `reads.txt`,
`Length_Filter2.py` fails with a `NameError` — not the descriptive
`UnsupportedInputError` the claim names — and `Length_Filter.py` does not
fail at all: it parses the path as plain text. -/
theorem input_dispatch_counterexample :
    openInputV2 "reads.txt" = Except.error ProgramError.nameError
    ∧ ProgramError.nameError ≠ ProgramError.unsupportedInput
    ∧ openInputV1 "reads.txt" = InputMode.plain :=
  ⟨rfl, by decide, rfl⟩

/-- C2 amended: for every path ending in neither `.fastq` nor `.fastq.gz`,
`Length_Filter2.py` aborts with a `NameError` (non-zero status, no parsing
attempted), while `Length_Filter.py` falls through to plain-text parsing of
the path. -/
theorem input_dispatch_amended (path : String)
    (h1 : endswith path ".fastq" = false) (h2 : endswith path ".fastq.gz" = false) :
    openInputV2 path = Except.error ProgramError.nameError
    ∧ openInputV1 path = InputMode.plain := by
  constructor
  · unfold openInputV2 resolveInput
    rw [h1, h2]
    rfl
  · rfl

/-- Witness for C2 at the concrete path `reads.txt`. -/
theorem input_dispatch_amended_witness :
    endswith "reads.txt" ".fastq" = false
    ∧ endswith "reads.txt" ".fastq.gz" = false
    ∧ openInputV2 "reads.txt" = Except.error ProgramError.nameError :=
  ⟨by decide, by decide, (input_dispatch_amended "reads.txt" (by decide) (by decide)).1⟩

/-- C3 counterexample: with the gzip flag set and output name `out.txt` —
a name lacking the compressed suffix — no suffix is appended and no warning
is printed, because the script only corrects names ending in `.fastq`. -/
theorem gzip_suffix_counterexample :
    resolveOutput true "out.txt" = ⟨"out.txt", true, false⟩
    ∧ endswith "out.txt" ".gz" = false :=
  ⟨by decide, by decide⟩

/-- C3 amended: with the gzip flag set, the `.gz` suffix is appended (and
the warning printed) exactly when the output name ends in `.fastq`, and the
corrected name then carries the compressed suffix; any other name is used
unchanged without a warning.  In both cases the handle compresses. -/
theorem gzip_suffix_amended (outputFile : String) :
    (endswith outputFile ".fastq" = true →
      resolveOutput true outputFile = ⟨outputFile ++ ".gz", true, true⟩
      ∧ endswith (outputFile ++ ".gz") ".gz" = true)
    ∧ (endswith outputFile ".fastq" = false →
      resolveOutput true outputFile = ⟨outputFile, true, false⟩) := by
  constructor
  · intro h
    exact ⟨by simp [resolveOutput, h], endswith_append outputFile ".gz"⟩
  · intro h
    simp [resolveOutput, h]

/-- Witness for C3 at the output name `out.fastq`. -/
theorem gzip_suffix_amended_witness :
    endswith "out.fastq" ".fastq" = true
    ∧ resolveOutput true "out.fastq" = ⟨"out.fastq" ++ ".gz", true, true⟩ :=
  ⟨by decide, ((gzip_suffix_amended "out.fastq").1 (by decide)).1⟩

/-- C7 counterexample: invoked with its input argument only,
`Length_Filter.py` prints its usage text to standard output — not standard
error — and exits with status 0, not a non-zero status. -/
theorem usage_exit_counterexample :
    parseArgsV1 ["Length_Filter.py", "input.fastq"]
      = Except.error ⟨OutChannel.stdout, 0, usageTextV1⟩
    ∧ OutChannel.stdout ≠ OutChannel.stderr :=
  ⟨rfl, by decide⟩

/-- C7 amended: on any argument vector with fewer than the four required
positional arguments, `Length_Filter.py` prints its usage text to standard
output and exits with status 0, while `Length_Filter2.py` (via argparse)
sends usage to standard error with exit status 2. -/
theorem usage_exit_amended (argv : List String) (h : argv.length ≤ 4) :
    parseArgsV1 argv = Except.error ⟨OutChannel.stdout, 0, usageTextV1⟩
    ∧ missingArgBehaviorV2.channel = OutChannel.stderr
    ∧ missingArgBehaviorV2.exitCode = 2 := by
  refine ⟨?_, rfl, rfl⟩
  have h4 : argv.get? 4 = none := List.get?_eq_none.mpr h
  unfold parseArgsV1
  rw [h4]
  cases h1 : argv.get? 1 with
  | none => rfl
  | some a =>
    cases h2 : argv.get? 2 with
    | none => rfl
    | some b =>
      cases h3 : argv.get? 3 with
      | none => rfl
      | some c => rfl

/-- Witness for C7 at the one-element argument vector. -/
theorem usage_exit_amended_witness :
    (["Length_Filter.py"] : List String).length ≤ 4
    ∧ parseArgsV1 ["Length_Filter.py"]
        = Except.error ⟨OutChannel.stdout, 0, usageTextV1⟩ :=
  ⟨by decide, (usage_exit_amended ["Length_Filter.py"] (by decide)).1⟩

/-- C8: a format error mid-stream aborts the pass at once — the records
before it have been filtered and written, nothing at or after the bad
record is processed no matter what follows it, and the error is surfaced
in the outcome, never swallowed. -/
theorem format_error_aborts (pre : List SeqRecord) (e : FormatError)
    (rest : List ParseStep) (lower upper : Int) :
    streamRun lower upper (pre.map ParseStep.ok ++ ParseStep.fail e :: rest)
      = (lengthFilter pre lower upper, some e) := by
  rw [lengthFilter_eq_filter_keep]
  induction pre with
  | nil => rfl
  | cons r rs ih =>
    simp only [List.map_cons, List.cons_append, streamRun, List.append_eq]
    rw [ih, List.filter_cons]

/-- C9 counterexample: a run aborted by a parse error ends with the output
handle not closed, and even a successful run never closes the input
handle — the claimed guaranteed release on all exit paths does not hold. -/
theorem handles_closed_counterexample :
    (runProgram [ParseStep.fail FormatError.lengthMismatch] 0 10).outputClosed = false
    ∧ (runProgram [] 0 10).inputClosed = false :=
  ⟨rfl, rfl⟩

/-- C9 amended: the output handle is explicitly closed exactly on the
successful-completion path (no parse error); on a mid-stream parse error
the close call is never reached, and the input handle is not explicitly
closed on any path. -/
theorem handles_closed_amended (items : List ParseStep) (lower upper : Int) :
    ((runProgram items lower upper).outputClosed = true ↔
      (runProgram items lower upper).err = none)
    ∧ (runProgram items lower upper).inputClosed = false := by
  refine ⟨?_, rfl⟩
  unfold runProgram
  simp [Option.isNone_iff_eq_none]

/-- Witness for C9 on an error-free run, whose output handle is closed. -/
theorem handles_closed_amended_witness :
    (runProgram ([] : List ParseStep) 0 10).outputClosed = true :=
  (handles_closed_amended [] 0 10).1.mpr rfl

/-- A one-file file system holding one short record at `data.fastq`. -/
def cexFs : String → Option (List SeqRecord) :=
  fun p => if p = "data.fastq" then some [⟨"r1", "", ""⟩] else none

/-- C10 counterexample: when the output path is given as the input path
itself, `open(OUTPUT_FILE, "w")` truncates and rewrites that very file, so
the input file's content after the run differs from its content before. -/
theorem input_unchanged_counterexample :
    runFs cexFs "data.fastq" "data.fastq" false 0 10 "data.fastq"
      ≠ cexFs "data.fastq" := by
  decide

/-- C10 amended: the run writes only at the resolved output path; every
other path — the input path included, whenever it differs from the
resolved output path — holds the same content after the run as before. -/
theorem input_unchanged_amended (fs : String → Option (List SeqRecord))
    (inputPath outputFile : String) (gzipFlag : Bool) (lower upper : Int)
    (h : inputPath ≠ finalOutputPath gzipFlag outputFile) :
    (∀ p, p ≠ finalOutputPath gzipFlag outputFile →
      runFs fs inputPath outputFile gzipFlag lower upper p = fs p)
    ∧ runFs fs inputPath outputFile gzipFlag lower upper inputPath = fs inputPath := by
  have frame : ∀ p, p ≠ finalOutputPath gzipFlag outputFile →
      runFs fs inputPath outputFile gzipFlag lower upper p = fs p := by
    intro p hp
    unfold runFs
    cases hin : fs inputPath with
    | none => rfl
    | some recs => simp [hp]
  exact ⟨frame, frame inputPath h⟩

/-- A one-file file system holding one record at `in.fastq`. -/
def wfs : String → Option (List SeqRecord) :=
  fun p => if p = "in.fastq" then some [⟨"r1", "ACGT", "IIII"⟩] else none

/-- Witness for C10 with distinct input and output paths. -/
theorem input_unchanged_amended_witness :
    "in.fastq" ≠ finalOutputPath false "out.fastq"
    ∧ runFs wfs "in.fastq" "out.fastq" false 2 10 "in.fastq" = wfs "in.fastq" :=
  ⟨by decide, (input_unchanged_amended wfs "in.fastq" "out.fastq" false 2 10 (by decide)).2⟩
